import Mathlib

/-!
# Verification of the caddy2-radius-auth authentication core

A shallow embedding, in Lean 4, of the RADIUS authentication decision
engine of the `caddy2_radius_auth` Go package (files `radius.go` and
`caddyfile.go`), together with theorems about its resolution policy,
verdict cache, provisioning and configuration validation.

Modelling conventions:
* Network I/O is abstracted by an `exchange : Int → String → Outcome`
  function: given the nanosecond deadline passed to the per-server
  context and the server address, it yields the single outcome that the
  corresponding goroutine sends on the channel (a response code, or a
  transport error).  Each goroutine sends exactly one result, so the
  channel delivers the results for all configured servers in an
  arbitrary arrival order, modelled by an `arrival` list constrained (in
  the theorems) to be a permutation of the configured server list.
* Go's `map` iteration order is unspecified; the iteration over
  `serverResults` used to build the aggregate error message is modelled
  by an `iter` list constrained to be a permutation of the distinct
  server addresses.
* Go standard-library functions used by the code (`time.ParseDuration`,
  `net.SplitHostPort`, `net.ParseIP`) are not part of this repository;
  they are taken as parameters (`pd`, `sph`, `pip`) of the embedded
  functions, with small executable models provided for concrete
  instantiation.
* Durations are in nanoseconds (`Int`, as Go's `time.Duration` is a
  signed 64-bit count of nanoseconds); wall-clock time is a `Nat` of
  nanoseconds, mirroring `time.Now().UnixNano()` used by `go-cache`.
-/

namespace RadiusAuth

/-- RADIUS code numbers (RFC 2865): `radius.CodeAccessAccept = 2`. -/
def CodeAccessAccept : Nat := 2

/-- RADIUS code numbers (RFC 2865): `radius.CodeAccessReject = 3`. -/
def CodeAccessReject : Nat := 3

/-- The outcome of one `radius.Exchange` call inside a per-server
goroutine: either a transport/protocol error (carrying the error's
rendered message) or a response packet with its code. -/
inductive Outcome where
  | fail (msg : String)
  | resp (code : Nat)
deriving DecidableEq, Repr

/-- The `code` field of the `result` record sent on the channel: the
goroutine sends `code: 0` when `radius.Exchange` returned an error, and
the response's code otherwise (`radius.go` lines 50–55). -/
def resultCode : Outcome → Nat
  | .fail _ => 0
  | .resp c => c

/-- The `err` field of the `result` record sent on the channel
(`radius.go` lines 50–55). -/
def resultErr : Outcome → Option String
  | .fail m => some m
  | .resp _ => none

/-- The `HTTPRadiusAuth` configuration struct (`caddyfile.go`).  The
unexported `cache` and `logger` fields are modelled separately (the
cache as an explicit `Option Cache` value threaded through
`Authenticate`). -/
structure HTTPRadiusAuth where
  Servers : List String
  Secret : String
  Realm : String
  Timeout : String
  CacheTTL : String
deriving DecidableEq, Repr

/-- Model of `timeout, _ := time.ParseDuration(r.Timeout)` (`radius.go` line 33):
Go's `ParseDuration` returns the zero duration alongside the error, and
the error is discarded, so an unparseable `Timeout` yields `0`. -/
def effectiveTimeout (pd : String → Option Int) (r : HTTPRadiusAuth) : Int :=
  (pd r.Timeout).getD 0

/-- The deadline handed to `context.WithTimeout` in each per-server
goroutine (`radius.go` line 48): the same parsed timeout for every
configured server. -/
def dispatchTimeouts (pd : String → Option Int) (r : HTTPRadiusAuth) : List Int :=
  r.Servers.map (fun _ => effectiveTimeout pd r)

/-- The receive loop of `checkRadiusConcurrent` (`radius.go` lines
64–82): folds over the channel's arrival order, setting
`hasAccessAccept` when a result's code equals `CodeAccessAccept` and
(in the `else if`) `hasReject` when it equals `CodeAccessReject`. -/
def resolveFlags (res : String → Outcome) (arrival : List String) : Bool × Bool :=
  arrival.foldl
    (fun acc s =>
      if resultCode (res s) == CodeAccessAccept then (true, acc.2)
      else if resultCode (res s) == CodeAccessReject then (acc.1, true)
      else acc)
    (false, false)

/-- One per-server clause of the aggregate error message (`radius.go`
lines 96–104).  `fmt`'s rendering of a `radius.Code` value is modelled
as its decimal string (the exact rendering lives in the external radius
library and is irrelevant to the claims). -/
def serverClause (server : String) (o : Outcome) : String :=
  match resultErr o with
  | some e => server ++ " error: " ++ e ++ "; "
  | none =>
      if resultCode o != 0 then
        server ++ " returned unknown code: " ++ toString (resultCode o) ++ "; "
      else
        server ++ ": no response; "

/-- The aggregate error message built by iterating over the
`serverResults` map (`radius.go` lines 95–104); `iter` is the map's
(unspecified) iteration order over its keys, and the map's value for a
key is the last result received for that server, which — outcomes being
a function of the server address — is `res s`. -/
def aggregateErrorMsg (res : String → Outcome) (iter : List String) : String :=
  iter.foldl (fun acc s => acc ++ serverClause s (res s))
    "RADIUS authentication issues: "

/-- Embedding of `checkRadiusConcurrent` (`radius.go` lines 18–107).  The packet
construction (lines 23–31) always succeeds for the string attributes
used here and does not affect the verdict, so it is not modelled; the
verdict is computed from the per-server outcomes exactly as the
source's resolution does.  An error return is modelled as `some msg`. -/
def checkRadiusConcurrent (pd : String → Option Int) (r : HTTPRadiusAuth)
    (exchange : Int → String → Outcome) (arrival iter : List String) :
    Bool × Option String :=
  if r.Servers.isEmpty then
    (false, some "no RADIUS servers configured")
  else
    let timeout := effectiveTimeout pd r
    let res : String → Outcome := exchange timeout
    let flags := resolveFlags res arrival
    if flags.1 then (true, none)
    else if flags.2 then (false, none)
    else (false, some (aggregateErrorMsg res iter))

/-- Go's `strings.Contains(s, ":")` / `strings.Contains(host, " ")`
single-character containment test, embedded over the character list of
the string. -/
def containsChar (s : String) (c : Char) : Bool := s.data.contains c

/-- Association-list lookup, modelling a Go map read. -/
def lookupAssoc (items : List (String × Bool × Nat)) (key : String) :
    Option (Bool × Nat) :=
  match items with
  | [] => none
  | (k, v) :: rest => if k = key then some v else lookupAssoc rest key

/-- Association-list overwrite-or-insert, modelling a Go map write. -/
def insertAssoc (items : List (String × Bool × Nat)) (key : String)
    (v : Bool × Nat) : List (String × Bool × Nat) :=
  match items with
  | [] => [(key, v)]
  | (k, w) :: rest =>
      if k = key then (k, v) :: rest else (k, w) :: insertAssoc rest key v

/-- The `patrickmn/go-cache` instance held in `HTTPRadiusAuth.cache`:
a TTL map from cache key to boolean verdict.  Each item stores its
absolute expiration instant (`UnixNano`); `defaultTTL` is the duration
passed to `cache.New`, which `Provision` only does with a positive
TTL. -/
structure Cache where
  defaultTTL : Int
  items : List (String × Bool × Nat)
deriving DecidableEq, Repr

/-- Model of `cache.Get(key)` at wall-clock instant `now`: a hit reports the
stored verdict unless the item's expiration is set (positive) and
strictly in the past (`go-cache` treats an item as expired when
`time.Now().UnixNano() > item.Expiration`). -/
def cacheGet (c : Cache) (key : String) (now : Nat) : Option Bool :=
  match lookupAssoc c.items key with
  | none => none
  | some (v, exp) => if 0 < exp ∧ exp < now then none else some v

/-- Model of `cache.SetDefault(key, v)` at instant `now`: stores `v` with
expiration `now + defaultTTL`. -/
def cacheSetDefault (c : Cache) (key : String) (v : Bool) (now : Nat) : Cache :=
  { c with items := insertAssoc c.items key (v, now + c.defaultTTL.toNat) }

/-- The cache key `fmt.Sprintf("%s:%s", user, pass)` (`caddyfile.go`,
`Authenticate`). -/
def cacheKey (user pass : String) : String :=
  user ++ ":" ++ pass

/-- What `Authenticate` observably does for one attempt: the identity
reported on success, the boolean verdict, the cache state after the
call, and whether a RADIUS fan-out (`checkRadiusConcurrent`) was
performed.  (The Go method's `error` return is `nil` on every path —
`promptForCredentials(w, nil)` — so it is not modelled.) -/
structure AuthOut where
  user : Option String
  ok : Bool
  cache : Option Cache
  radiusCalled : Bool
deriving DecidableEq, Repr

/-- Embedding of `Authenticate` (`caddyfile.go` lines 196–233), from the point where
Basic-Auth credentials have been extracted.  `c` is the provisioned
cache (`none` when caching is disabled), `now` the current instant.
Mirrors the source: cache lookup first; on a hit return the cached
verdict with no network work; on a miss run `checkRadiusConcurrent`;
on its error return without storing; otherwise store the verdict (cache
enabled only) and return it. -/
def Authenticate (pd : String → Option Int) (r : HTTPRadiusAuth)
    (c : Option Cache) (user pass : String)
    (exchange : Int → String → Outcome) (arrival iter : List String)
    (now : Nat) : AuthOut :=
  let key := cacheKey user pass
  let cached : Option Bool :=
    match c with
    | none => none
    | some cc => cacheGet cc key now
  match cached with
  | some b =>
      if b then ⟨some user, true, c, false⟩ else ⟨none, false, c, false⟩
  | none =>
      match checkRadiusConcurrent pd r exchange arrival iter with
      | (_, some _) => ⟨none, false, c, true⟩
      | (ok, none) =>
          let c' : Option Cache :=
            match c with
            | none => none
            | some cc => some (cacheSetDefault cc key ok now)
          if ok then ⟨some user, true, c', true⟩ else ⟨none, false, c', true⟩

/-- Embedding of `isValidServerAddr` (`caddyfile.go` lines 184–193).  `sph` models
`net.SplitHostPort` (`none` for a parse error) and `pip` models
`net.ParseIP(host) != nil`. -/
def isValidServerAddr (sph : String → Option (String × String))
    (pip : String → Bool) (addr : String) : Bool :=
  match sph addr with
  | none => false
  | some (host, port) =>
      if host = "" || port = "" then false
      else if !pip host && containsChar host ' ' then false
      else true

/-- The result of a successful `Provision`: the updated configuration
struct and the cache instance (`none` when `cache_ttl` is zero). -/
structure Provisioned where
  ra : HTTPRadiusAuth
  cache : Option Cache
deriving DecidableEq, Repr

/-- Embedding of `Provision` (`caddyfile.go` lines 139–181): rejects an empty server
list and an empty secret; defaults `Timeout` to `"3s"` and `CacheTTL`
to `"0s"` when empty; parses `CacheTTL` (a parse failure is an error);
instantiates the cache only for a positive TTL; filters the server list
through `isValidServerAddr`, keeping only valid entries, and fails only
when none remain. -/
def Provision (sph : String → Option (String × String)) (pip : String → Bool)
    (pd : String → Option Int) (r : HTTPRadiusAuth) :
    Except String Provisioned :=
  if r.Servers.isEmpty then .error "no RADIUS servers configured"
  else if r.Secret = "" then .error "missing RADIUS shared secret"
  else
    let timeout := if r.Timeout = "" then "3s" else r.Timeout
    let cacheTTL := if r.CacheTTL = "" then "0s" else r.CacheTTL
    match pd cacheTTL with
    | none => .error "invalid cache_ttl duration"
    | some ttl =>
        let c : Option Cache := if 0 < ttl then some ⟨ttl, []⟩ else none
        let valid := r.Servers.filter (isValidServerAddr sph pip)
        if valid.isEmpty then
          .error "no valid RADIUS servers remain after validation"
        else
          .ok ⟨{ r with Servers := valid, Timeout := timeout,
                        CacheTTL := cacheTTL }, c⟩

/-- The per-address validation of the `servers` block in
`parseCaddyfile` (`caddyfile.go` lines 42–51): an address must contain
a colon, and `net.SplitHostPort` must succeed with nonempty host and
port; otherwise parsing stops with an error. -/
def parseServersLoop (sph : String → Option (String × String)) :
    List String → List String → Except String (List String)
  | acc, [] => .ok acc
  | acc, s :: rest =>
      if !containsChar s ':' then
        .error ("invalid RADIUS server address: " ++ s ++ " (must include port)")
      else
        match sph s with
        | none => .error ("invalid RADIUS server format: " ++ s)
        | some (host, port) =>
            if host = "" || port = "" then
              .error ("invalid RADIUS server format: " ++ s)
            else
              parseServersLoop sph (acc ++ [s]) rest

/-- The `servers` case of `parseCaddyfile` (`caddyfile.go` lines
36–51): no argument is an error, and each argument is validated by
`parseServersLoop`. -/
def parseCaddyfileServers (sph : String → Option (String × String))
    (args : List String) : Except String (List String) :=
  if args.isEmpty then .error "servers requires at least one address"
  else parseServersLoop sph [] args

/-- Modelled from the spec: the Go standard library's
`time.ParseDuration` (not part of this repository), restricted to the
whole-second form `"<digits>s"` that covers the defaults `"0s"` and
`"3s"` used by `Provision`; every other string is rejected.  The result
is in nanoseconds. -/
def parseDurationModel (s : String) : Option Int :=
  match s.data.reverse with
  | 's' :: restRev =>
      let digits := restRev.reverse
      if digits ≠ [] ∧ digits.all Char.isDigit then
        some (((digits.foldl (fun n c => 10 * n + (c.toNat - 48)) 0 : Nat) :
          Int) * 1000000000)
      else none
  | _ => none

/-- Modelled from the spec: the Go standard library's
`net.SplitHostPort` (not part of this repository), restricted to the
plain `host:port` form (exactly one colon); Go's bracketed-IPv6 form
and its `missing port` / `too many colons` errors are all mapped to
`none`. -/
def splitHostPortModel (s : String) : Option (String × String) :=
  match s.data.splitOn ':' with
  | [host, port] => some (⟨host⟩, ⟨port⟩)
  | _ => none

/-- Modelled from the spec: `net.ParseIP(h) != nil` (Go standard
library, not part of this repository).  Only its value on
space-containing hosts can influence `isValidServerAddr`, and no IP
literal contains a space, so the constantly-`false` oracle agrees with
Go wherever it matters. -/
def parseIPModel (_ : String) : Bool := false

/-- States that `frag` occurs as a contiguous substring of `msg`, over the
underlying character lists. -/
def substringOf (frag msg : String) : Prop :=
  ∃ pre post : List Char, msg.data = pre ++ frag.data ++ post

/-! ### Concrete values used by the witnesses -/

/-- A two-server configuration for concrete evaluation. -/
def witConfig : HTTPRadiusAuth :=
  ⟨["a:1812", "b:1812"], "secret", "", "3s", "0s"⟩

/-- Outcomes: server `a` times out, server `b` accepts. -/
def witExchangeAccept : Int → String → Outcome := fun _ s =>
  if s = "b:1812" then .resp 2 else .fail "context deadline exceeded"

/-- Outcomes: server `a` errors, server `b` rejects. -/
def witExchangeReject : Int → String → Outcome := fun _ s =>
  if s = "b:1812" then .resp 3 else .fail "connection refused"

/-- Outcomes: server `a` errors (connection refused), server `b`
returns Access-Challenge (code 11), an unexpected code. -/
def witExchangeErr : Int → String → Outcome := fun _ s =>
  if s = "b:1812" then .resp 11 else .fail "connection refused"

/-- A cache instance with a one-second TTL and no entries. -/
def witCache : Cache := ⟨1000000000, []⟩

/-- A configuration leaving `timeout` and `cache_ttl` to their
defaults. -/
def witConfigNoTTL : HTTPRadiusAuth := ⟨["a:1812"], "secret", "", "", ""⟩

/-- A configuration whose second server address has no port and is
rejected by `net.SplitHostPort`. -/
def witConfigMixed : HTTPRadiusAuth := ⟨["h:1812", "bad"], "secret", "", "", ""⟩

/-- A configuration whose `timeout` string does not parse as a
duration. -/
def witConfigBadTimeout : HTTPRadiusAuth :=
  ⟨["a:1812"], "secret", "", "zzz", "1s"⟩

/-- The validity test that the `servers` block of `parseCaddyfile`
applies to one address: it must contain a colon, and `SplitHostPort`
must succeed with nonempty host and port. -/
def caddyfileAddrOk (sph : String → Option (String × String))
    (s : String) : Bool :=
  containsChar s ':' &&
    (match sph s with
     | none => false
     | some (host, port) => !(host = "" || port = ""))

/-- An alternative duration parser agreeing with `parseDurationModel`
on `"1s"` but nowhere else, used to exhibit that `Provision` consults
the parser only on the cache-TTL string. -/
def pdAlt (s : String) : Option Int :=
  if s = "1s" then some 1000000000 else some 42

/-! ## Lemmas about the resolution loop -/

/-- The receive loop computes exactly the two membership flags: an
Accept was seen, a Reject was seen. -/
theorem resolveFlags_eq (res : String → Outcome) (arrival : List String) :
    resolveFlags res arrival
      = (arrival.any (fun s => resultCode (res s) == CodeAccessAccept),
         arrival.any (fun s => resultCode (res s) == CodeAccessReject)) := by
  suffices h : ∀ (l : List String) (acc : Bool × Bool),
      l.foldl
        (fun acc s =>
          if resultCode (res s) == CodeAccessAccept then (true, acc.2)
          else if resultCode (res s) == CodeAccessReject then (acc.1, true)
          else acc) acc
        = (acc.1 || l.any (fun s => resultCode (res s) == CodeAccessAccept),
           acc.2 || l.any (fun s => resultCode (res s) == CodeAccessReject)) by
    simpa [resolveFlags] using h arrival (false, false)
  intro l
  induction l with
  | nil => intro acc; simp
  | cons x xs ih =>
      intro acc
      simp only [List.foldl_cons, List.any_cons]
      rw [ih]
      by_cases h2 : resultCode (res x) = CodeAccessAccept
      · simp [h2, CodeAccessAccept, CodeAccessReject, Bool.or_assoc]
      · by_cases h3 : resultCode (res x) = CodeAccessReject
        · simp [h2, h3, CodeAccessAccept, CodeAccessReject, Bool.or_assoc]
        · have hb2 : (resultCode (res x) == CodeAccessAccept) = false :=
            beq_eq_false_iff_ne.mpr h2
          have hb3 : (resultCode (res x) == CodeAccessReject) = false :=
            beq_eq_false_iff_ne.mpr h3
          simp [hb2, hb3]

/-- The function `List.any` is invariant under permutation of the list. -/
theorem any_congr_perm {α : Type} (p : α → Bool) {l1 l2 : List α}
    (h : List.Perm l1 l2) : l1.any p = l2.any p := by
  induction h with
  | nil => rfl
  | cons x _ ih => simp [List.any_cons, ih]
  | swap x y l => simp only [List.any_cons]; rw [Bool.or_left_comm]
  | trans _ _ ih1 ih2 => rw [ih1, ih2]

/-- A nonempty server list never takes the early `no RADIUS servers
configured` return. -/
theorem servers_isEmpty_false (r : HTTPRadiusAuth) {s : String}
    (hs : s ∈ r.Servers) : r.Servers.isEmpty = false := by
  have hne : r.Servers ≠ [] := by
    intro h
    rw [h] at hs
    exact absurd hs (List.not_mem_nil s)
  simp [hne]

/-! ## C1, C2, C8: the resolution policy -/

/-- C1: for every credential pair and every assignment of per-server
outcomes, if at least one configured server's outcome is Access-Accept,
then `checkRadiusConcurrent` returns `(true, nil)`, regardless of the
accepting server's position in the list and whatever the other servers
did (timeout, error, reject, unknown code). -/
theorem C1_accept_from_any_server
    (pd : String → Option Int) (r : HTTPRadiusAuth)
    (exchange : Int → String → Outcome) (arrival iter : List String)
    (s : String) (hs : s ∈ r.Servers)
    (hacc : resultCode (exchange (effectiveTimeout pd r) s) = CodeAccessAccept)
    (harr : List.Perm arrival r.Servers) :
    checkRadiusConcurrent pd r exchange arrival iter = (true, none) := by
  have hne := servers_isEmpty_false r hs
  have hmem : s ∈ arrival := harr.mem_iff.mpr hs
  have hany : arrival.any
      (fun x => resultCode (exchange (effectiveTimeout pd r) x)
        == CodeAccessAccept) = true :=
    List.any_eq_true.mpr ⟨s, hmem, by simp [hacc]⟩
  simp [checkRadiusConcurrent, hne, resolveFlags_eq, hany]

/-- C2: for every credential pair and every assignment of per-server
outcomes, if no server's outcome is Access-Accept and at least one
server's outcome is Access-Reject, then `checkRadiusConcurrent` returns
`(false, nil)` — a negative verdict with no error. -/
theorem C2_reject_without_accept
    (pd : String → Option Int) (r : HTTPRadiusAuth)
    (exchange : Int → String → Outcome) (arrival iter : List String)
    (s : String)
    (hnoacc : ∀ t ∈ r.Servers,
      resultCode (exchange (effectiveTimeout pd r) t) ≠ CodeAccessAccept)
    (hs : s ∈ r.Servers)
    (hrej : resultCode (exchange (effectiveTimeout pd r) s) = CodeAccessReject)
    (harr : List.Perm arrival r.Servers) :
    checkRadiusConcurrent pd r exchange arrival iter = (false, none) := by
  have hne := servers_isEmpty_false r hs
  have hnoany : arrival.any
      (fun x => resultCode (exchange (effectiveTimeout pd r) x)
        == CodeAccessAccept) = false := by
    rw [Bool.eq_false_iff]
    intro hcontra
    obtain ⟨t, ht, hpt⟩ := List.any_eq_true.mp hcontra
    exact hnoacc t (harr.mem_iff.mp ht) (by simpa using hpt)
  have hany : arrival.any
      (fun x => resultCode (exchange (effectiveTimeout pd r) x)
        == CodeAccessReject) = true :=
    List.any_eq_true.mpr ⟨s, harr.mem_iff.mpr hs, by simp [hrej]⟩
  simp [checkRadiusConcurrent, hne, resolveFlags_eq, hnoany, hany]

/-- C8: the resolution policy is commutative and order-independent —
for one and the same assignment of per-server outcomes and one and the
same map-iteration order, the returned `(bool, error)` verdict is
identical for every arrival order of the per-server results. -/
theorem C8_resolution_order_independent
    (pd : String → Option Int) (r : HTTPRadiusAuth)
    (exchange : Int → String → Outcome) (arrival1 arrival2 iter : List String)
    (h : List.Perm arrival1 arrival2) :
    checkRadiusConcurrent pd r exchange arrival1 iter
      = checkRadiusConcurrent pd r exchange arrival2 iter := by
  simp only [checkRadiusConcurrent, resolveFlags_eq,
    any_congr_perm _ h]

/-- Witness for C1 at a concrete input: the accepting server arrives
first in a permuted order, the other server timed out. -/
theorem C1_witness :
    checkRadiusConcurrent parseDurationModel witConfig witExchangeAccept
      ["b:1812", "a:1812"] ["a:1812", "b:1812"] = (true, none) :=
  C1_accept_from_any_server parseDurationModel witConfig witExchangeAccept
    ["b:1812", "a:1812"] ["a:1812", "b:1812"] "b:1812"
    (by decide) (by decide) (List.Perm.swap "a:1812" "b:1812" [])

/-- Witness for C2 at a concrete input: one server rejected, the other
errored, none accepted. -/
theorem C2_witness :
    checkRadiusConcurrent parseDurationModel witConfig witExchangeReject
      ["b:1812", "a:1812"] ["a:1812", "b:1812"] = (false, none) :=
  C2_reject_without_accept parseDurationModel witConfig witExchangeReject
    ["b:1812", "a:1812"] ["a:1812", "b:1812"] "b:1812"
    (by decide) (by decide) (by decide) (List.Perm.swap "a:1812" "b:1812" [])

/-- Witness for C8 at a concrete input: swapping the arrival order of
the two servers leaves the verdict unchanged. -/
theorem C8_witness :
    checkRadiusConcurrent parseDurationModel witConfig witExchangeReject
      ["b:1812", "a:1812"] ["a:1812", "b:1812"]
      = checkRadiusConcurrent parseDurationModel witConfig witExchangeReject
        ["a:1812", "b:1812"] ["a:1812", "b:1812"] :=
  C8_resolution_order_independent parseDurationModel witConfig
    witExchangeReject ["b:1812", "a:1812"] ["a:1812", "b:1812"]
    ["a:1812", "b:1812"] (List.Perm.swap "a:1812" "b:1812" [])

/-! ## C3: the indeterminate error message -/

/-- A substring of `a` is a substring of `a ++ b`. -/
theorem substringOf_append_right (frag a b : String)
    (h : substringOf frag a) : substringOf frag (a ++ b) := by
  obtain ⟨pre, post, hp⟩ := h
  refine ⟨pre, post ++ b.data, ?_⟩
  rw [String.data_append, hp]
  simp [List.append_assoc]

/-- A string is a substring of anything it is appended to. -/
theorem substringOf_self_suffix (a frag : String) :
    substringOf frag (a ++ frag) := by
  refine ⟨a.data, [], ?_⟩
  rw [String.data_append]
  simp

/-- Folding further clauses onto an accumulator preserves substrings of
the accumulator. -/
theorem substringOf_foldl_of_base (res : String → Outcome) (f : String) :
    ∀ (l : List String) (a : String), substringOf f a →
      substringOf f (l.foldl (fun acc x => acc ++ serverClause x (res x)) a)
  | [], _, h => h
  | x :: xs, a, h =>
      substringOf_foldl_of_base res f xs (a ++ serverClause x (res x))
        (substringOf_append_right f a _ h)

/-- The clause of every iterated-over server occurs in the folded
message. -/
theorem substringOf_foldl_of_mem (res : String → Outcome) (s : String) :
    ∀ (l : List String) (a : String), s ∈ l →
      substringOf (serverClause s (res s))
        (l.foldl (fun acc x => acc ++ serverClause x (res x)) a) := by
  intro l
  induction l with
  | nil => intro a h; exact absurd h (List.not_mem_nil s)
  | cons x xs ih =>
      intro a h
      rw [List.foldl_cons]
      rcases List.mem_cons.mp h with h | h
      · subst h
        exact substringOf_foldl_of_base res _ xs _
          (substringOf_self_suffix a _)
      · exact ih _ h

/-- The clause of every iterated-over server occurs in the aggregate
error message. -/
theorem substringOf_aggregate (res : String → Outcome) (iter : List String)
    (s : String) (hs : s ∈ iter) :
    substringOf (serverClause s (res s)) (aggregateErrorMsg res iter) := by
  unfold aggregateErrorMsg
  exact substringOf_foldl_of_mem res s iter _ hs

/-- C3: for every credential pair and every assignment of per-server
outcomes, if no server's outcome is Access-Accept and none is
Access-Reject, then `checkRadiusConcurrent` returns `false` together
with a non-nil error whose message contains, for each configured
server, that server's clause — attributing an error, an unknown code,
or no response to it. -/
theorem C3_indeterminate_error
    (pd : String → Option Int) (r : HTTPRadiusAuth)
    (exchange : Int → String → Outcome) (arrival iter : List String)
    (hnoacc : ∀ t ∈ r.Servers,
      resultCode (exchange (effectiveTimeout pd r) t) ≠ CodeAccessAccept)
    (hnorej : ∀ t ∈ r.Servers,
      resultCode (exchange (effectiveTimeout pd r) t) ≠ CodeAccessReject)
    (harr : List.Perm arrival r.Servers)
    (hiter : List.Perm iter arrival.dedup) :
    ∃ msg, checkRadiusConcurrent pd r exchange arrival iter
        = (false, some msg) ∧
      ∀ t ∈ r.Servers,
        substringOf (serverClause t (exchange (effectiveTimeout pd r) t))
          msg := by
  by_cases hemp : r.Servers.isEmpty = true
  · refine ⟨"no RADIUS servers configured", ?_, ?_⟩
    · simp [checkRadiusConcurrent, hemp]
    · intro t ht
      rw [List.isEmpty_iff] at hemp
      rw [hemp] at ht
      exact absurd ht (List.not_mem_nil t)
  · have hne : r.Servers.isEmpty = false := Bool.eq_false_iff.mpr hemp
    have hnoany2 : arrival.any
        (fun x => resultCode (exchange (effectiveTimeout pd r) x)
          == CodeAccessAccept) = false := by
      rw [Bool.eq_false_iff]
      intro hcontra
      obtain ⟨t, ht, hpt⟩ := List.any_eq_true.mp hcontra
      exact hnoacc t (harr.mem_iff.mp ht) (by simpa using hpt)
    have hnoany3 : arrival.any
        (fun x => resultCode (exchange (effectiveTimeout pd r) x)
          == CodeAccessReject) = false := by
      rw [Bool.eq_false_iff]
      intro hcontra
      obtain ⟨t, ht, hpt⟩ := List.any_eq_true.mp hcontra
      exact hnorej t (harr.mem_iff.mp ht) (by simpa using hpt)
    refine ⟨aggregateErrorMsg (exchange (effectiveTimeout pd r)) iter, ?_, ?_⟩
    · simp [checkRadiusConcurrent, hne, resolveFlags_eq, hnoany2, hnoany3]
    · intro t ht
      exact substringOf_aggregate _ iter t
        (hiter.mem_iff.mpr (List.mem_dedup.mpr (harr.mem_iff.mpr ht)))

/-- Witness for C3 at a concrete input: one server errored and one
returned an unknown code, so the verdict is `false` with an error
mentioning both servers. -/
theorem C3_witness :
    ∃ msg, checkRadiusConcurrent parseDurationModel witConfig witExchangeErr
        ["b:1812", "a:1812"] ["b:1812", "a:1812"] = (false, some msg) ∧
      ∀ t ∈ witConfig.Servers,
        substringOf
          (serverClause t
            (witExchangeErr (effectiveTimeout parseDurationModel witConfig) t))
          msg := by
  apply C3_indeterminate_error
  · decide
  · decide
  · exact List.Perm.swap "a:1812" "b:1812" []
  · have h : (["b:1812", "a:1812"] : List String).dedup
        = ["b:1812", "a:1812"] := by decide
    rw [h]

/-! ## Lemmas about the verdict cache and `Authenticate` -/

/-- Looking up the key just written returns the written item. -/
theorem lookupAssoc_insertAssoc_self (items : List (String × Bool × Nat))
    (key : String) (v : Bool × Nat) :
    lookupAssoc (insertAssoc items key v) key = some v := by
  induction items with
  | nil => simp [insertAssoc, lookupAssoc]
  | cons hd tl ih =>
      obtain ⟨k, w⟩ := hd
      by_cases hk : k = key
      · simp [insertAssoc, lookupAssoc, hk]
      · simp [insertAssoc, lookupAssoc, hk, ih]

/-- A key that is absent (or expired) stays absent (or expired) at any
later instant: `go-cache` items never reappear. -/
theorem cacheGet_none_mono (c : Cache) (key : String) {now now2 : Nat}
    (h : cacheGet c key now = none) (hle : now ≤ now2) :
    cacheGet c key now2 = none := by
  cases hl : lookupAssoc c.items key with
  | none => simp [cacheGet, hl]
  | some item =>
      obtain ⟨v, exp⟩ := item
      simp only [cacheGet, hl] at h ⊢
      by_cases hc : 0 < exp ∧ exp < now
      · exact if_pos ⟨hc.1, lt_of_lt_of_le hc.2 hle⟩
      · rw [if_neg hc] at h
        exact absurd h (by simp)

/-- Behaviour of `Authenticate` on a cache hit: the cached verdict is returned, the
cache is left untouched, and no fan-out happens. -/
theorem Authenticate_hit (pd : String → Option Int) (r : HTTPRadiusAuth)
    (cc : Cache) (u p : String) (exchange : Int → String → Outcome)
    (arrival iter : List String) (now : Nat) (b : Bool)
    (hhit : cacheGet cc (cacheKey u p) now = some b) :
    Authenticate pd r (some cc) u p exchange arrival iter now
      = if b then ⟨some u, true, some cc, false⟩
        else ⟨none, false, some cc, false⟩ := by
  cases b <;> simp [Authenticate, hhit]

/-- Behaviour of `Authenticate` on a cache miss whose fan-out resolves with an
error: nothing is stored and the attempt fails closed. -/
theorem Authenticate_miss_error (pd : String → Option Int)
    (r : HTTPRadiusAuth) (cc : Cache) (u p : String)
    (exchange : Int → String → Outcome) (arrival iter : List String)
    (now : Nat) (ok : Bool) (e : String)
    (hmiss : cacheGet cc (cacheKey u p) now = none)
    (hchk : checkRadiusConcurrent pd r exchange arrival iter = (ok, some e)) :
    Authenticate pd r (some cc) u p exchange arrival iter now
      = ⟨none, false, some cc, true⟩ := by
  simp [Authenticate, hmiss, hchk]

/-- Behaviour of `Authenticate` on a cache miss whose fan-out resolves cleanly: the
verdict is returned and, when the cache is enabled, stored under the
attempt's key. -/
theorem Authenticate_miss_ok (pd : String → Option Int)
    (r : HTTPRadiusAuth) (cc : Cache) (u p : String)
    (exchange : Int → String → Outcome) (arrival iter : List String)
    (now : Nat) (ok : Bool)
    (hmiss : cacheGet cc (cacheKey u p) now = none)
    (hchk : checkRadiusConcurrent pd r exchange arrival iter = (ok, none)) :
    Authenticate pd r (some cc) u p exchange arrival iter now
      = if ok then
          ⟨some u, true, some (cacheSetDefault cc (cacheKey u p) ok now), true⟩
        else
          ⟨none, false, some (cacheSetDefault cc (cacheKey u p) ok now), true⟩ := by
  cases ok <;> simp [Authenticate, hmiss, hchk]

/-- Behaviour of `Authenticate` on a cache miss: the fan-out always runs. -/
theorem Authenticate_miss_radiusCalled (pd : String → Option Int)
    (r : HTTPRadiusAuth) (cc : Cache) (u p : String)
    (exchange : Int → String → Outcome) (arrival iter : List String)
    (now : Nat)
    (hmiss : cacheGet cc (cacheKey u p) now = none) :
    (Authenticate pd r (some cc) u p exchange arrival iter now).radiusCalled
      = true := by
  rcases hchk : checkRadiusConcurrent pd r exchange arrival iter with ⟨ok, err⟩
  cases err with
  | none => cases ok <;> simp [Authenticate, hmiss, hchk]
  | some e => simp [Authenticate, hmiss, hchk]

/-- Behaviour of `Authenticate` with a disabled cache: it never creates one and always
performs the fan-out. -/
theorem Authenticate_nocache (pd : String → Option Int)
    (r : HTTPRadiusAuth) (u p : String)
    (exchange : Int → String → Outcome) (arrival iter : List String)
    (now : Nat) :
    (Authenticate pd r none u p exchange arrival iter now).radiusCalled
        = true ∧
    (Authenticate pd r none u p exchange arrival iter now).cache = none := by
  rcases hchk : checkRadiusConcurrent pd r exchange arrival iter with ⟨ok, err⟩
  cases err with
  | none => cases ok <;> simp [Authenticate, hchk]
  | some e => simp [Authenticate, hchk]

/-! ## C4, C5, C6: cache population, hits, and the disabled cache -/

/-- C4: for an attempt with the cache enabled that reaches the RADIUS
fan-out, the cache is written under the attempt's key exactly when the
fan-out resolves as `(true, nil)` or `(false, nil)`; when it returns a
non-nil error, the cache is unchanged and every later call for the same
credentials performs the fan-out again. -/
theorem C4_error_never_cached (pd : String → Option Int)
    (r : HTTPRadiusAuth) (cc : Cache) (u p : String)
    (exchange : Int → String → Outcome) (arrival iter : List String)
    (now : Nat)
    (hmiss : cacheGet cc (cacheKey u p) now = none) :
    (∀ ok, checkRadiusConcurrent pd r exchange arrival iter = (ok, none) →
      (Authenticate pd r (some cc) u p exchange arrival iter now).cache
        = some (cacheSetDefault cc (cacheKey u p) ok now)) ∧
    (∀ ok e, checkRadiusConcurrent pd r exchange arrival iter
        = (ok, some e) →
      (Authenticate pd r (some cc) u p exchange arrival iter now).cache
          = some cc ∧
      ∀ now2, now ≤ now2 →
        ∀ (exchange2 : Int → String → Outcome) (arrival2 iter2 : List String),
          (Authenticate pd r (some cc) u p exchange2 arrival2 iter2
              now2).radiusCalled = true) := by
  constructor
  · intro ok hchk
    rw [Authenticate_miss_ok pd r cc u p exchange arrival iter now ok
      hmiss hchk]
    cases ok <;> simp
  · intro ok e hchk
    refine ⟨?_, ?_⟩
    · rw [Authenticate_miss_error pd r cc u p exchange arrival iter
        now ok e hmiss hchk]
    · intro now2 hle exchange2 arrival2 iter2
      exact Authenticate_miss_radiusCalled pd r cc u p exchange2
        arrival2 iter2 now2
        (cacheGet_none_mono cc (cacheKey u p) hmiss hle)

/-- C5: with the cache enabled, after a fresh attempt resolves with
verdict `v` and no error, a second call for the same credentials within
the TTL returns exactly `v` from the cache with no fan-out, while a
call strictly after the TTL has elapsed misses the cache and performs a
fresh fan-out. -/
theorem C5_cache_hit_within_ttl (pd : String → Option Int)
    (r : HTTPRadiusAuth) (cc : Cache) (u p : String)
    (exchange : Int → String → Outcome) (arrival iter : List String)
    (now : Nat) (v : Bool)
    (httl : 0 < cc.defaultTTL)
    (hmiss : cacheGet cc (cacheKey u p) now = none)
    (hchk : checkRadiusConcurrent pd r exchange arrival iter = (v, none)) :
    (Authenticate pd r (some cc) u p exchange arrival iter now).ok = v ∧
    (Authenticate pd r (some cc) u p exchange arrival iter now).cache
      = some (cacheSetDefault cc (cacheKey u p) v now) ∧
    (∀ t1, t1 ≤ now + cc.defaultTTL.toNat →
      ∀ (exchange2 : Int → String → Outcome) (arrival2 iter2 : List String),
        Authenticate pd r (some (cacheSetDefault cc (cacheKey u p) v now))
            u p exchange2 arrival2 iter2 t1
          = if v then
              ⟨some u, true,
               some (cacheSetDefault cc (cacheKey u p) v now), false⟩
            else
              ⟨none, false,
               some (cacheSetDefault cc (cacheKey u p) v now), false⟩) ∧
    (∀ t2, now + cc.defaultTTL.toNat < t2 →
      ∀ (exchange2 : Int → String → Outcome) (arrival2 iter2 : List String),
        (Authenticate pd r (some (cacheSetDefault cc (cacheKey u p) v now))
            u p exchange2 arrival2 iter2 t2).radiusCalled = true) := by
  have hstore : Authenticate pd r (some cc) u p exchange arrival iter now
      = if v then
          ⟨some u, true, some (cacheSetDefault cc (cacheKey u p) v now), true⟩
        else
          ⟨none, false, some (cacheSetDefault cc (cacheKey u p) v now),
           true⟩ :=
    Authenticate_miss_ok pd r cc u p exchange arrival iter now v hmiss hchk
  have hlook : lookupAssoc (cacheSetDefault cc (cacheKey u p) v now).items
      (cacheKey u p) = some (v, now + cc.defaultTTL.toNat) :=
    lookupAssoc_insertAssoc_self cc.items (cacheKey u p) _
  refine ⟨?_, ?_, ?_, ?_⟩
  · rw [hstore]; cases v <;> simp
  · rw [hstore]; cases v <;> simp
  · intro t1 ht1 exchange2 arrival2 iter2
    have hhit : cacheGet (cacheSetDefault cc (cacheKey u p) v now)
        (cacheKey u p) t1 = some v := by
      unfold cacheGet
      rw [hlook]
      exact if_neg (by intro hcon; exact absurd ht1 (not_le.mpr hcon.2))
    exact Authenticate_hit pd r _ u p exchange2 arrival2 iter2 t1 v hhit
  · intro t2 ht2 exchange2 arrival2 iter2
    have hexp : cacheGet (cacheSetDefault cc (cacheKey u p) v now)
        (cacheKey u p) t2 = none := by
      unfold cacheGet
      rw [hlook]
      refine if_pos ⟨?_, ht2⟩
      omega
    exact Authenticate_miss_radiusCalled pd r _ u p exchange2 arrival2
      iter2 t2 hexp

/-- C6: when the configured cache TTL parses to zero, `Provision` does
not instantiate the cache; with no cache, every call — including two
consecutive identical calls — performs the full fan-out and leaves the
cache absent. -/
theorem C6_zero_ttl_no_cache (sph : String → Option (String × String))
    (pip : String → Bool) (pd : String → Option Int)
    (r : HTTPRadiusAuth) (st : Provisioned)
    (hok : Provision sph pip pd r = .ok st)
    (httl : pd (if r.CacheTTL = "" then "0s" else r.CacheTTL) = some 0) :
    st.cache = none ∧
    ∀ (u p : String) (exchange : Int → String → Outcome)
      (arrival iter : List String) (now : Nat)
      (exchange2 : Int → String → Outcome) (arrival2 iter2 : List String)
      (now2 : Nat),
      (Authenticate pd st.ra none u p exchange arrival iter now).radiusCalled
          = true ∧
      (Authenticate pd st.ra none u p exchange arrival iter now).cache
          = none ∧
      (Authenticate pd st.ra
          ((Authenticate pd st.ra none u p exchange arrival iter now).cache)
          u p exchange2 arrival2 iter2 now2).radiusCalled = true := by
  have hc : st.cache = none := by
    unfold Provision at hok
    by_cases h1 : r.Servers.isEmpty = true
    · simp [h1] at hok
    · by_cases h2 : r.Secret = ""
      · simp [h1, h2] at hok
      · simp only [h1, h2, httl, Bool.false_eq_true, if_false,
          if_neg (by simp [h2] : ¬(r.Secret = ""))] at hok
        by_cases h3 :
            (r.Servers.filter (isValidServerAddr sph pip)).isEmpty = true
        · simp [h3] at hok
        · simp only [h3, Bool.false_eq_true, if_false, Except.ok.injEq] at hok
          rw [← hok]
          simp
  refine ⟨hc, ?_⟩
  intro u p exchange arrival iter now exchange2 arrival2 iter2 now2
  obtain ⟨hr1, hr2⟩ :=
    Authenticate_nocache pd st.ra u p exchange arrival iter now
  refine ⟨hr1, hr2, ?_⟩
  rw [hr2]
  exact (Authenticate_nocache pd st.ra u p exchange2 arrival2 iter2 now2).1

/-- Witness for C4 at concrete inputs: an indeterminate fan-out leaves
the cache untouched, a clean one stores the verdict under the key. -/
theorem C4_witness :
    (Authenticate parseDurationModel witConfig (some witCache) "u" "p"
        witExchangeErr ["a:1812", "b:1812"] ["a:1812", "b:1812"] 5).cache
      = some witCache ∧
    (Authenticate parseDurationModel witConfig (some witCache) "u" "p"
        witExchangeAccept ["a:1812", "b:1812"] ["a:1812", "b:1812"] 5).cache
      = some (cacheSetDefault witCache (cacheKey "u" "p") true 5) := by
  constructor
  · have h := C4_error_never_cached parseDurationModel witConfig witCache
      "u" "p" witExchangeErr ["a:1812", "b:1812"] ["a:1812", "b:1812"] 5
      (by decide)
    exact (h.2 false
      ("RADIUS authentication issues: a:1812 error: connection refused; "
        ++ "b:1812 returned unknown code: 11; ") (by decide)).1
  · have h := C4_error_never_cached parseDurationModel witConfig witCache
      "u" "p" witExchangeAccept ["a:1812", "b:1812"] ["a:1812", "b:1812"] 5
      (by decide)
    exact h.1 true (by decide)

/-- Witness for C5 at concrete inputs: after a fresh accept verdict at
instant 0 with a 1-second TTL, a call at 0.5s is served from the cache
with no fan-out, and a call at 2s performs the fan-out again. -/
theorem C5_witness :
    (Authenticate parseDurationModel witConfig (some witCache) "u" "p"
        witExchangeAccept ["a:1812", "b:1812"] ["a:1812", "b:1812"] 0).ok
      = true ∧
    Authenticate parseDurationModel witConfig
        (some (cacheSetDefault witCache (cacheKey "u" "p") true 0)) "u" "p"
        witExchangeErr ["a:1812", "b:1812"] ["a:1812", "b:1812"] 500000000
      = ⟨some "u", true,
         some (cacheSetDefault witCache (cacheKey "u" "p") true 0), false⟩ ∧
    (Authenticate parseDurationModel witConfig
        (some (cacheSetDefault witCache (cacheKey "u" "p") true 0)) "u" "p"
        witExchangeErr ["a:1812", "b:1812"] ["a:1812", "b:1812"]
        2000000000).radiusCalled = true := by
  have h := C5_cache_hit_within_ttl parseDurationModel witConfig witCache
    "u" "p" witExchangeAccept ["a:1812", "b:1812"] ["a:1812", "b:1812"] 0
    true (by decide) (by decide) (by decide)
  refine ⟨h.1, ?_, ?_⟩
  · have h2 := h.2.2.1 500000000 (by decide) witExchangeErr
      ["a:1812", "b:1812"] ["a:1812", "b:1812"]
    simpa using h2
  · exact h.2.2.2 2000000000 (by decide) witExchangeErr
      ["a:1812", "b:1812"] ["a:1812", "b:1812"]

/-- Witness for C6 at concrete inputs: provisioning with the default
(zero) TTL yields no cache, and two consecutive identical calls both
perform the fan-out. -/
theorem C6_witness :
    (⟨⟨["a:1812"], "secret", "", "3s", "0s"⟩, none⟩ : Provisioned).cache
        = none ∧
    (Authenticate parseDurationModel
        (⟨["a:1812"], "secret", "", "3s", "0s"⟩ : HTTPRadiusAuth) none
        "u" "p" witExchangeAccept ["a:1812"] ["a:1812"] 0).radiusCalled
        = true ∧
    (Authenticate parseDurationModel
        (⟨["a:1812"], "secret", "", "3s", "0s"⟩ : HTTPRadiusAuth) none
        "u" "p" witExchangeAccept ["a:1812"] ["a:1812"] 0).cache = none ∧
    (Authenticate parseDurationModel
        (⟨["a:1812"], "secret", "", "3s", "0s"⟩ : HTTPRadiusAuth)
        ((Authenticate parseDurationModel
          (⟨["a:1812"], "secret", "", "3s", "0s"⟩ : HTTPRadiusAuth) none
          "u" "p" witExchangeAccept ["a:1812"] ["a:1812"] 0).cache)
        "u" "p" witExchangeAccept ["a:1812"] ["a:1812"] 1).radiusCalled
        = true := by
  have h := C6_zero_ttl_no_cache splitHostPortModel parseIPModel
    parseDurationModel witConfigNoTTL
    ⟨⟨["a:1812"], "secret", "", "3s", "0s"⟩, none⟩ (by rfl) (by decide)
  exact ⟨h.1,
    h.2 "u" "p" witExchangeAccept ["a:1812"] ["a:1812"] 0
      witExchangeAccept ["a:1812"] ["a:1812"] 1⟩

/-! ## C7: cache-key collisions -/

/-- C7 counterexample: the claim that the key derivation is injective
across distinct credential pairs is false — the distinct pairs
`("a:b", "c")` and `("a", "b:c")` derive the same key `"a:b:c"`. -/
theorem C7_counterexample :
    cacheKey "a:b" "c" = cacheKey "a" "b:c" ∧
    ¬("a:b" = "a" ∧ "c" = "b:c") := by
  exact ⟨by decide, by decide⟩

/-- Splitting a list at a distinguished separator absent from both
left parts is unambiguous. -/
theorem append_sep_inj {l1 r1 l2 r2 : List Char}
    (h1 : ':' ∉ l1) (h2 : ':' ∉ l2)
    (heq : l1 ++ ':' :: r1 = l2 ++ ':' :: r2) : l1 = l2 ∧ r1 = r2 := by
  induction l1 generalizing l2 with
  | nil =>
      cases l2 with
      | nil => simpa using heq
      | cons y ys =>
          rw [List.nil_append, List.cons_append, List.cons.injEq] at heq
          exact absurd (heq.1 ▸ List.mem_cons_self y ys) h2
  | cons x xs ih =>
      cases l2 with
      | nil =>
          rw [List.nil_append, List.cons_append, List.cons.injEq] at heq
          exact absurd (heq.1.symm ▸ List.mem_cons_self x xs) h1
      | cons y ys =>
          rw [List.cons_append, List.cons_append, List.cons.injEq] at heq
          have hx : ':' ∉ xs := fun hm => h1 (List.mem_cons_of_mem x hm)
          have hy : ':' ∉ ys := fun hm => h2 (List.mem_cons_of_mem y hm)
          obtain ⟨hl, hr⟩ := ih hx hy heq.2
          exact ⟨by rw [heq.1, hl], hr⟩

/-- C7 (amended): the key derivation is injective on credential pairs
whose usernames do not contain the separator `':'` — two such distinct
pairs never share a cache entry.  (When a username may itself contain
`':'`, distinct pairs can collide, as the counterexample shows.) -/
theorem C7_key_injective_without_colon (u1 p1 u2 p2 : String)
    (h1 : ':' ∉ u1.data) (h2 : ':' ∉ u2.data)
    (heq : cacheKey u1 p1 = cacheKey u2 p2) : u1 = u2 ∧ p1 = p2 := by
  have hdata : u1.data ++ ':' :: p1.data = u2.data ++ ':' :: p2.data := by
    have h := congrArg String.data heq
    simp only [cacheKey, String.data_append] at h
    simpa using h
  obtain ⟨hu, hp⟩ := append_sep_inj h1 h2 hdata
  exact ⟨String.ext hu, String.ext hp⟩

/-- Witness for the amended C7 at concrete inputs. -/
theorem C7_witness : ("alice" : String) = "alice" ∧ ("pw" : String) = "pw" :=
  C7_key_injective_without_colon "alice" "pw" "alice" "pw"
    (by decide) (by decide) rfl

/-! ## C9: validation of server addresses -/

/-- C9 counterexample: an unparseable address is not fatal to
`Provision` — with servers `["h:1812", "bad"]` (where `"bad"` has no
port and fails `SplitHostPort`), `Provision` succeeds, silently
dropping the invalid entry, instead of rejecting the configuration. -/
theorem C9_counterexample :
    caddyfileAddrOk splitHostPortModel "bad" = false ∧
    isValidServerAddr splitHostPortModel parseIPModel "bad" = false ∧
    Provision splitHostPortModel parseIPModel parseDurationModel
        witConfigMixed
      = .ok ⟨⟨["h:1812"], "secret", "", "3s", "0s"⟩, none⟩ :=
  ⟨by decide, by decide, by rfl⟩

/-- A servers loop that completes successfully has validated every
address it walked over. -/
theorem parseServersLoop_ok_all (sph : String → Option (String × String)) :
    ∀ (l acc out : List String), parseServersLoop sph acc l = .ok out →
      ∀ s ∈ l, caddyfileAddrOk sph s = true := by
  intro l
  induction l with
  | nil => intro acc out _ s hs; exact absurd hs (List.not_mem_nil s)
  | cons x xs ih =>
      intro acc out h s hs
      unfold parseServersLoop at h
      by_cases hc : containsChar x ':' = true
      · rw [if_neg (by simp [hc])] at h
        cases hsp : sph x with
        | none =>
            simp only [hsp] at h
            exact absurd h (by simp)
        | some hp =>
            obtain ⟨host, port⟩ := hp
            simp only [hsp] at h
            by_cases he : (host = "" || port = "") = true
            · rw [if_pos he] at h; exact absurd h (by simp)
            · rw [if_neg he] at h
              rcases List.mem_cons.mp hs with rfl | hs2
              · simp [caddyfileAddrOk, hc, hsp,
                  Bool.eq_false_iff.mpr he]
              · exact ih _ _ h s hs2
      · rw [if_pos (by simp [Bool.eq_false_iff.mpr hc])] at h
        exact absurd h (by simp)

/-- C9 (amended): an unparseable server address is fatal to Caddyfile
parsing — the `servers` block returns an error — but `Provision` does
not reject the configuration on its account: it drops invalid entries
and succeeds (with the invalid addresses filtered out) whenever a valid
server, a nonempty secret and a parseable TTL remain. -/
theorem C9_invalid_address_validation
    (sph : String → Option (String × String)) (pip : String → Bool)
    (pd : String → Option Int) (args : List String) (s : String)
    (r : HTTPRadiusAuth) (t : Int) :
    (s ∈ args → caddyfileAddrOk sph s = false →
      ∃ e, parseCaddyfileServers sph args = .error e) ∧
    (r.Servers ≠ [] → r.Secret ≠ "" →
      pd (if r.CacheTTL = "" then "0s" else r.CacheTTL) = some t →
      r.Servers.filter (isValidServerAddr sph pip) ≠ [] →
      ∃ st, Provision sph pip pd r = .ok st ∧
        st.ra.Servers = r.Servers.filter (isValidServerAddr sph pip)) := by
  constructor
  · intro hmem hbad
    cases hres : parseCaddyfileServers sph args with
    | error e => exact ⟨e, rfl⟩
    | ok out =>
        have hne : args.isEmpty = false := by
          have hnil : args ≠ [] := by
            intro hnil
            rw [hnil] at hmem
            exact absurd hmem (List.not_mem_nil s)
          simp [hnil]
        unfold parseCaddyfileServers at hres
        rw [hne] at hres
        have hall := parseServersLoop_ok_all sph args [] out
          (by simpa using hres) s hmem
        rw [hbad] at hall
        exact absurd hall (by simp)
  · intro h1 h2 h3 h4
    refine ⟨⟨{ r with
        Servers := r.Servers.filter (isValidServerAddr sph pip),
        Timeout := if r.Timeout = "" then "3s" else r.Timeout,
        CacheTTL := if r.CacheTTL = "" then "0s" else r.CacheTTL },
        if 0 < t then some ⟨t, []⟩ else none⟩, ?_, rfl⟩
    unfold Provision
    rw [if_neg (by simp [h1]), if_neg h2]
    simp only [h3]
    rw [if_neg (by simp [h4])]

/-- Witness for the amended C9 at concrete inputs: parsing the block
`servers h:1812 bad` fails, while provisioning the same list succeeds
with `"bad"` filtered out. -/
theorem C9_witness :
    (∃ e, parseCaddyfileServers splitHostPortModel ["h:1812", "bad"]
      = .error e) ∧
    ∃ st, Provision splitHostPortModel parseIPModel parseDurationModel
        witConfigMixed = .ok st ∧
      st.ra.Servers
        = witConfigMixed.Servers.filter
            (isValidServerAddr splitHostPortModel parseIPModel) := by
  have h := C9_invalid_address_validation splitHostPortModel parseIPModel
    parseDurationModel ["h:1812", "bad"] "bad" witConfigMixed 0
  exact ⟨h.1 (by decide) (by decide),
    h.2 (by decide) (by decide) (by rfl) (by decide)⟩

/-! ## C10: the unparseable timeout -/

/-- C10: when the `Timeout` field does not parse as a duration,
`checkRadiusConcurrent` silently proceeds with a zero-value timeout as
every per-server dispatch deadline — its result is exactly that of a
run whose parser yields the zero duration, never a parse error — and
`Provision` neither touches a non-empty `Timeout` (the `"3s"` default
applies only to the empty string) nor consults the duration parser on
it (its outcome depends on the parser only through the cache-TTL
string). -/
theorem C10_unparseable_timeout
    (pd pd2 : String → Option Int)
    (sph : String → Option (String × String)) (pip : String → Bool)
    (r : HTTPRadiusAuth) (exchange : Int → String → Outcome)
    (arrival iter : List String)
    (hbad : pd r.Timeout = none) :
    effectiveTimeout pd r = 0 ∧
    dispatchTimeouts pd r = r.Servers.map (fun _ => 0) ∧
    checkRadiusConcurrent pd r exchange arrival iter
      = checkRadiusConcurrent (fun _ => some 0) r exchange arrival iter ∧
    (pd (if r.CacheTTL = "" then "0s" else r.CacheTTL)
        = pd2 (if r.CacheTTL = "" then "0s" else r.CacheTTL) →
      Provision sph pip pd r = Provision sph pip pd2 r) ∧
    (r.Timeout ≠ "" → ∀ st, Provision sph pip pd r = .ok st →
      st.ra.Timeout = r.Timeout) := by
  have h0 : effectiveTimeout pd r = 0 := by
    simp [effectiveTimeout, hbad]
  refine ⟨h0, ?_, ?_, ?_, ?_⟩
  · simp [dispatchTimeouts, h0]
  · simp [checkRadiusConcurrent, effectiveTimeout, hbad]
  · intro hagree
    simp only [Provision, hagree]
  · intro hne st hok
    unfold Provision at hok
    by_cases h1 : r.Servers.isEmpty = true
    · simp [h1] at hok
    · by_cases h2 : r.Secret = ""
      · simp [h1, h2] at hok
      · simp only [h1, h2, Bool.false_eq_true, if_false,
          if_neg h2] at hok
        cases hpd : pd (if r.CacheTTL = "" then "0s" else r.CacheTTL) with
        | none => rw [hpd] at hok; exact absurd hok (by simp)
        | some t =>
            rw [hpd] at hok
            by_cases h3 :
                (r.Servers.filter (isValidServerAddr sph pip)).isEmpty
                  = true
            · simp [h3] at hok
            · simp only [h3, Bool.false_eq_true, if_false,
                Except.ok.injEq] at hok
              rw [← hok]
              simp [if_neg hne]

/-- Witness for C10 at a concrete input: the configuration's timeout
string `"zzz"` does not parse, yet the fan-out proceeds with a zero
deadline and `Provision` keeps `"zzz"` untouched. -/
theorem C10_witness :
    effectiveTimeout parseDurationModel witConfigBadTimeout = 0 ∧
    dispatchTimeouts parseDurationModel witConfigBadTimeout
      = witConfigBadTimeout.Servers.map (fun _ => 0) ∧
    checkRadiusConcurrent parseDurationModel witConfigBadTimeout
        witExchangeAccept ["a:1812"] ["a:1812"]
      = checkRadiusConcurrent (fun _ => some 0) witConfigBadTimeout
          witExchangeAccept ["a:1812"] ["a:1812"] ∧
    (parseDurationModel (if witConfigBadTimeout.CacheTTL = "" then "0s"
          else witConfigBadTimeout.CacheTTL)
        = pdAlt (if witConfigBadTimeout.CacheTTL = "" then "0s"
          else witConfigBadTimeout.CacheTTL) →
      Provision splitHostPortModel parseIPModel parseDurationModel
          witConfigBadTimeout
        = Provision splitHostPortModel parseIPModel pdAlt
            witConfigBadTimeout) ∧
    (witConfigBadTimeout.Timeout ≠ "" →
      ∀ st, Provision splitHostPortModel parseIPModel parseDurationModel
          witConfigBadTimeout = .ok st →
        st.ra.Timeout = witConfigBadTimeout.Timeout) :=
  C10_unparseable_timeout parseDurationModel pdAlt splitHostPortModel
    parseIPModel witConfigBadTimeout witExchangeAccept ["a:1812"]
    ["a:1812"] (by rfl)

end RadiusAuth
